import Mathlib

/-!
Shallow embedding of `update_extension.py` (ElevenLabs Chrome Extension
Updater) and verification of its specification claims.

File texts are modelled as `List Char`; JSON files whose content is produced
by `json.dump` of structured data are modelled by the structured data itself
(`json.dump` is deterministic and injective on these values, so bit-for-bit
equality of the written files coincides with structural equality).
Python floats appearing in the data (only `token_cost_factor`, defaulted to
`1.0` and never computed with) are modelled as rationals.
-/

namespace UpdateExtension

/-- A file's text, as the sequence of its characters. -/
abbrev Str := List Char

/-- ASCII fragment of Python's whitespace class, as used by `str.strip`,
`int(...)` and the regex class `\s` (`[ \t\n\r\f\v]`). -/
def isPySpace (c : Char) : Bool :=
  c = ' ' || c = '\t' || c = '\n' || c = '\r' || c = '\x0b' || c = '\x0c'

/-- Python `str.strip()` (also the whitespace stripping done by `int(...)`):
drop leading and trailing whitespace. -/
def pyStrip (s : Str) : Str :=
  ((s.dropWhile isPySpace).reverse.dropWhile isPySpace).reverse

/-- Validate and collect the remaining characters of a Python integer literal
after its first digit: digits, with single underscores allowed only between
digits (Python 3 `int(...)` grammar). Returns the digits with underscores
removed, or `none` if malformed. -/
def digitsTail : Str → Option Str
  | [] => some []
  | '_' :: c :: rest => if c.isDigit then (digitsTail rest).map (fun ds => c :: ds) else none
  | c :: rest => if c.isDigit then (digitsTail rest).map (fun ds => c :: ds) else none

/-- Numeric value of a digit string (underscores already removed). -/
def digitsToNat (ds : Str) : Nat :=
  ds.foldl (fun a c => a * 10 + (c.toNat - 48)) 0

/-- Parse the unsigned part of a Python integer literal: a nonempty digit
string, underscores allowed between digits. -/
def parseUNat : Str → Option Nat
  | [] => none
  | c :: rest =>
    if c.isDigit then (digitsTail rest).map (fun ds => digitsToNat (c :: ds)) else none

/-- Parse an optionally signed Python integer literal (whitespace already
stripped). -/
def pyIntCore : Str → Option Int
  | '+' :: rest => (parseUNat rest).map (fun n => (n : Int))
  | '-' :: rest => (parseUNat rest).map (fun n => -(n : Int))
  | s => (parseUNat s).map (fun n => (n : Int))

/-- Python `int(s)` on a string: strips surrounding whitespace, then parses an
optionally signed decimal integer; `none` models the `ValueError` raised on
any other input. -/
def pyInt (s : Str) : Option Int := pyIntCore (pyStrip s)

/-- Python `str(i)` for an integer: decimal representation, with a leading
minus sign when negative. -/
def intStr (i : Int) : Str :=
  if i < 0 then '-' :: (Nat.repr i.natAbs).data else (Nat.repr i.toNat).data

/-- Python `version.split(".")`: split on every dot, keeping empty parts
(`"".split(".") == [""]`). -/
def splitDot : Str → List Str
  | [] => [[]]
  | c :: rest =>
    if c = '.' then [] :: splitDot rest
    else
      match splitDot rest with
      | p :: ps => (c :: p) :: ps
      | [] => [[c]]

/-- Version-string transformation inside `update_manifest_version`
(`src/update_extension.py` lines 276-287): split the current version on dots;
if there are exactly three parts, apply `int` to the third, add one, and
rebuild `f"{parts[0]}.{parts[1]}.{patch}"`. `none` models both the
`len(parts) != 3` fallthrough and the `ValueError` of `int` being caught by
the surrounding `except` (in either case the file is not rewritten). -/
def update_manifest_version (version : Str) : Option Str :=
  match splitDot version with
  | [p0, p1, p2] =>
    match pyInt p2 with
    | some n => some (p0 ++ ".".data ++ p1 ++ ".".data ++ intStr (n + 1))
    | none => none
  | _ => none

/-- File-level behaviour of `update_manifest_version` (lines 263-291): the
manifest file is modelled by `Option (Option Str)` — absent file, or a file
whose `version` key is absent or holds a string. A missing file or a failed
bump returns `False` and leaves the file unchanged; a successful bump
rewrites the version (adding the key if it was absent, since the code reads
`manifest.get("version", "1.0.0")`). -/
def update_manifest_version_file : Option (Option Str) → Bool × Option (Option Str)
  | none => (false, none)
  | some v? =>
    let current := v?.getD "1.0.0".data
    match update_manifest_version current with
    | some newV => (true, some (some newV))
    | none => (false, some v?)

/-- A language entry inside a model's `languages` list, a JSON object whose
`language_id` and `name` keys may be absent (`none`). The report writer
accesses both with `item[...]`, so an absent key raises `KeyError` there. -/
structure ApiLang where
  language_id : Option Str
  name : Option Str
deriving DecidableEq

/-- An uninterpreted JSON object passed through unchanged (voice `labels` and
`settings` blobs are serialized as-is and never inspected); modelled as an
association list. -/
abbrev JsonObj := List (Str × Str)

/-- A model item of the API response, after the TTS filter of
`fetch_models`. Each field is `none` when the key is absent from the
response; the code reads every field with `dict.get`. -/
structure ApiModel where
  model_id : Option Str
  name : Option Str
  description : Option Str
  can_be_finetuned : Option Bool
  token_cost_factor : Option ℚ
  languages : Option (List ApiLang)
  can_do_text_to_speech : Option Bool
  can_do_voice_conversion : Option Bool
deriving DecidableEq

/-- A voice item of the API response; `none` marks an absent key. -/
structure ApiVoice where
  voice_id : Option Str
  name : Option Str
  category : Option Str
  description : Option Str
  labels : Option JsonObj
  preview_url : Option Str
  available_for_tiers : Option (List Str)
  settings : Option JsonObj
deriving DecidableEq

/-- The subscription object; `none` for the whole object models the empty
dict `{}` returned by `get_user_subscription` on a fetch error (falsy in the
report's `if subscription:`). -/
structure ApiSubscription where
  tier : Option Str
  character_limit : Option Int
  character_count : Option Int
  can_use_instant_voice_cloning : Option Bool
  can_use_professional_voice_cloning : Option Bool
deriving DecidableEq

/-- Result of `format_model_for_dropdown` (lines 84-100): `model_id` defaults
to `""`, `name` defaults to the (possibly empty) `model_id`, `description`
to `""`; the label appends a truncated description only when the description
is truthy (nonempty). -/
structure DropdownModel where
  value : Str
  label : Str
  name : Str
  description : Str
deriving DecidableEq

/-- Shallow embedding of `format_model_for_dropdown`. -/
def format_model_for_dropdown (m : ApiModel) : DropdownModel :=
  let model_id := m.model_id.getD []
  let name := m.name.getD model_id
  let description := m.description.getD []
  let label :=
    if description = [] then name
    else name ++ " - ".data ++ description.take 50 ++ "...".data
  ⟨model_id, label, name, description⟩

/-- One `<option>` line of the rebuilt dropdown
(`f'  <option value="{formatted["value"]}">{formatted["name"]}</option>'`,
line 147). -/
def optionLine (m : ApiModel) : Str :=
  "  <option value=\"".data ++ (format_model_for_dropdown m).value
    ++ "\">".data ++ (format_model_for_dropdown m).name ++ "</option>".data

/-- The option lines built by the loop of `update_popup_html`
(lines 144-148), one per model, in list order. -/
def options_html (models : List ApiModel) : List Str :=
  models.map optionLine

/-- Python `'\n'.join(...)`. -/
def joinNl (ls : List Str) : Str := List.intercalate ['\n'] ls

/-- The full replacement block of `update_popup_html` (line 150):
`'<select id="mode">\n' + '\n'.join(options_html) + '\n</select>'`. -/
def new_select_block (models : List ApiModel) : Str :=
  "<select id=\"mode\">\n".data ++ joinNl (options_html models) ++ "\n</select>".data

/-- The Javascript-identifier form of a model name used in `content.js`
conditions (line 192): `model.get("name", "").lower().replace(" ", "_")`.
`Char.toLower` models `str.lower` on the ASCII range. -/
def jsModelName (m : ApiModel) : Str :=
  ((m.name.getD []).map Char.toLower).map (fun c => if c = ' ' then '_' else c)

/-- A non-final mapping line (line 195):
`f'    (mode === "{model_name}" || mode === "{model_id}") ? "{model_id}" :'`. -/
def condLine (m : ApiModel) : Str :=
  let mid := m.model_id.getD []
  "    (mode === \"".data ++ jsModelName m ++ "\" || mode === \"".data ++ mid
    ++ "\") ? \"".data ++ mid ++ "\" :".data

/-- The final (default) mapping line (line 199):
`f'    "{model_id}"; // default'`. -/
def defaultLine (m : ApiModel) : Str :=
  "    \"".data ++ m.model_id.getD [] ++ "\"; // default".data

/-- The line produced for index `i` of a list of length `len` by the loop of
`update_content_js_model_mapping` (lines 190-201): the last index gets the
default line, every other index a condition line. -/
def mappingLine (len i : Nat) (m : ApiModel) : Str :=
  if i = len - 1 then defaultLine m else condLine m

/-- The per-model lines appended by the `enumerate(models)` loop, carrying
the running index. -/
def mappingBody (len : Nat) : Nat → List ApiModel → List Str
  | _, [] => []
  | i, m :: rest => mappingLine len i m :: mappingBody len (i + 1) rest

/-- All lines of the new mapping: the header `"  const model_id ="` followed
by one line per model (lines 186-201). -/
def model_mapping_lines (models : List ApiModel) : List Str :=
  "  const model_id =".data :: mappingBody models.length 0 models

/-- `new_mapping = '\n'.join(mapping_lines)` (line 203). -/
def new_model_mapping (models : List ApiModel) : Str :=
  joinNl (model_mapping_lines models)

/-- Index of the first occurrence of `pat` as a contiguous substring of `s`
(`none` if it does not occur). -/
def findSub (pat : Str) : Str → Option Nat
  | [] => if pat.isPrefixOf ([] : Str) then some 0 else none
  | c :: rest =>
    if pat.isPrefixOf (c :: rest) then some 0
    else (findSub pat rest).map (fun k => k + 1)

/-- Number of positions of `s` at which `pat` occurs as a substring. -/
def occCount (pat : Str) : Str → Nat
  | [] => if pat.isPrefixOf ([] : Str) then 1 else 0
  | c :: rest =>
    (if pat.isPrefixOf (c :: rest) then 1 else 0) + occCount pat rest

/-- Opening delimiter literal of the popup.html pattern. -/
def selectOpenTag : Str := "<select id=\"mode\">".data

/-- Closing delimiter literal of the popup.html pattern. -/
def selectCloseTag : Str := "</select>".data

/-- Span (start index, end index exclusive) of the leftmost match of the
regex `(<select id="mode">[\s\S]*?</select>)` (line 134). Leftmost-lazy
semantics: the match starts at the first occurrence of the opening literal
and ends at the end of the first occurrence of `</select>` after it. If the
first opening literal has no closing literal after it, no later start
position can have one either (closing occurrences after a later position are
a subset), so the regex fails everywhere and the search returns `none`. -/
def selectSpan (s : Str) : Option (Nat × Nat) :=
  match findSub selectOpenTag s with
  | none => none
  | some p =>
    match findSub selectCloseTag (s.drop (p + selectOpenTag.length)) with
    | none => none
    | some k => some (p, p + selectOpenTag.length + k + selectCloseTag.length)

/-- Literal of the content.js pattern. -/
def modelIdDecl : Str := "const model_id =".data

/-- Index of the last newline of `s`, if any. -/
def lastNl (s : Str) : Option Nat :=
  match findSub ['\n'] s.reverse with
  | some k => some (s.length - 1 - k)
  | none => none

/-- Span of the leftmost match of the regex
`(const model_id =\s*[\s\S]*?\n)` (line 178). The match starts at the first
occurrence of the literal; greedy `\s*` first consumes the maximal
whitespace run `w`, then the lazy part runs to the first newline after it;
if no newline follows the run, `\s*` backtracks inside the run and the match
ends just after the run's last newline; if no newline occurs after the
literal at all, the regex fails there, and (by the same monotonicity as in
`selectSpan`) everywhere. -/
def contentSpan (s : Str) : Option (Nat × Nat) :=
  match findSub modelIdDecl s with
  | none => none
  | some p =>
    let t := s.drop (p + modelIdDecl.length)
    let w := (t.takeWhile isPySpace).length
    match findSub ['\n'] (t.drop w) with
    | some k => some (p, p + modelIdDecl.length + w + k + 1)
    | none =>
      match lastNl (t.take w) with
      | some j => some (p, p + modelIdDecl.length + j + 1)
      | none => none

theorem contentSpan_bpos {s : Str} {a b : Nat} (h : contentSpan s = some (a, b)) :
    1 ≤ b := by
  unfold contentSpan at h
  cases hf : findSub modelIdDecl s with
  | none => rw [hf] at h; exact absurd h (by simp)
  | some p =>
    rw [hf] at h
    simp only at h
    cases hk : findSub ['\n']
        ((s.drop (p + modelIdDecl.length)).drop
          ((s.drop (p + modelIdDecl.length)).takeWhile isPySpace).length) with
    | some k => rw [hk] at h; simp at h; omega
    | none =>
      rw [hk] at h
      cases hj : lastNl ((s.drop (p + modelIdDecl.length)).take
          ((s.drop (p + modelIdDecl.length)).takeWhile isPySpace).length) with
      | some j => rw [hj] at h; simp at h; omega
      | none => rw [hj] at h; exact absurd h (by simp)

theorem contentSpan_nil : contentSpan ([] : Str) = none := by
  decide

/-- Recursion core of Python `re.sub` for the content.js pattern: replace
every non-overlapping match, scanning left to right and resuming after each
match's end. The fuel argument only bounds the recursion depth (each match
consumes at least one character); it is set to the text length by the
wrapper and never runs out. -/
def reSubAux (repl : Str) : Nat → Str → Str
  | 0, s => s
  | fuel + 1, s =>
    match contentSpan s with
    | none => s
    | some (a, b) => s.take a ++ repl ++ reSubAux repl fuel (s.drop b)

/-- Python `re.sub(pattern, repl, content)` for the content.js pattern
(line 206), restricted to replacement texts containing no backslash: on
those, Python's replacement-template processing is the identity and the
replacement is inserted literally. The full behaviour — template escapes,
group references, and the uncaught `re.error`/`IndexError` raised on bad
escapes (reachable when a model name or id contains a backslash) — is
modelled by `parse_template`, `update_content_js_model_mapping_full` and
`run_update_full` below, and `content_js_full_literal` proves this literal
function is their restriction to backslash-free replacements. -/
def reSubModelMapping (repl s : Str) : Str := reSubAux repl s.length s

/-- The result of `reSubAux` does not depend on the fuel once it covers the
text length. -/
theorem reSubAux_fuel_irrel (repl : Str) :
    ∀ (f1 f2 : Nat) (s : Str), s.length ≤ f1 → s.length ≤ f2 →
      reSubAux repl f1 s = reSubAux repl f2 s := by
  intro f1
  induction f1 with
  | zero =>
    intro f2 s h1 _
    have hs : s = [] := List.eq_nil_of_length_eq_zero (by omega)
    subst hs
    cases f2 with
    | zero => rfl
    | succ g => simp [reSubAux, contentSpan_nil]
  | succ f ih =>
    intro f2 s h1 h2
    cases f2 with
    | zero =>
      have hs : s = [] := List.eq_nil_of_length_eq_zero (by omega)
      subst hs
      simp [reSubAux, contentSpan_nil]
    | succ g =>
      simp only [reSubAux]
      cases hc : contentSpan s with
      | none => rfl
      | some ab =>
        cases ab with
        | mk a b =>
          have hb := contentSpan_bpos hc
          have hlen : (s.drop b).length ≤ f := by
            simp only [List.length_drop]
            omega
          have hlen2 : (s.drop b).length ≤ g := by
            simp only [List.length_drop]
            omega
          exact congrArg (fun t => s.take a ++ repl ++ t) (ih g (s.drop b) hlen hlen2)

/-- Recursion core of Python `str.replace(old, new)` for nonempty `old`:
replace every non-overlapping occurrence, scanning left to right. The fuel
only bounds the recursion depth and is set to the text length by the
wrapper. -/
def pyReplaceNEAux (old new : Str) : Nat → Str → Str
  | _, [] => []
  | 0, s => s
  | fuel + 1, c :: rest =>
    if old.isPrefixOf (c :: rest) && !old.isEmpty then
      new ++ pyReplaceNEAux old new fuel (rest.drop (old.length - 1))
    else c :: pyReplaceNEAux old new fuel rest

/-- Python `str.replace(old, new)` for nonempty `old`. -/
def pyReplaceNE (old new s : Str) : Str := pyReplaceNEAux old new s.length s

/-- The result of `pyReplaceNEAux` does not depend on the fuel once it
covers the text length. -/
theorem pyReplaceNEAux_fuel_irrel (old new : Str) :
    ∀ (f1 f2 : Nat) (s : Str), s.length ≤ f1 → s.length ≤ f2 →
      pyReplaceNEAux old new f1 s = pyReplaceNEAux old new f2 s := by
  intro f1
  induction f1 with
  | zero =>
    intro f2 s h1 _
    have hs : s = [] := List.eq_nil_of_length_eq_zero (by omega)
    subst hs
    cases f2 <;> rfl
  | succ f ih =>
    intro f2 s h1 h2
    cases s with
    | nil => cases f2 <;> rfl
    | cons c rest =>
      cases f2 with
      | zero => simp at h2
      | succ g =>
        simp only [pyReplaceNEAux]
        by_cases hp : (old.isPrefixOf (c :: rest) && !old.isEmpty) = true
        · rw [if_pos hp, if_pos hp]
          have hlen : (rest.drop (old.length - 1)).length ≤ f := by
            simp only [List.length_drop]
            simp only [List.length_cons] at h1
            omega
          have hlen2 : (rest.drop (old.length - 1)).length ≤ g := by
            simp only [List.length_drop]
            simp only [List.length_cons] at h2
            omega
          rw [ih g _ hlen hlen2]
        · rw [if_neg hp, if_neg hp]
          have hlen : rest.length ≤ f := by
            simp only [List.length_cons] at h1
            omega
          have hlen2 : rest.length ≤ g := by
            simp only [List.length_cons] at h2
            omega
          rw [ih g rest hlen hlen2]

/-- Step equation of `pyReplaceNE` on a nonempty text. -/
theorem pyReplaceNE_cons (old new : Str) (c : Char) (rest : Str) :
    pyReplaceNE old new (c :: rest) =
      if old.isPrefixOf (c :: rest) && !old.isEmpty then
        new ++ pyReplaceNE old new (rest.drop (old.length - 1))
      else c :: pyReplaceNE old new rest := by
  unfold pyReplaceNE
  simp only [List.length_cons, pyReplaceNEAux]
  by_cases hp : (old.isPrefixOf (c :: rest) && !old.isEmpty) = true
  · rw [if_pos hp, if_pos hp]
    exact congrArg (new ++ ·) (pyReplaceNEAux_fuel_irrel old new rest.length _ _
      (by simp only [List.length_drop]; omega) (le_refl _))
  · rw [if_neg hp, if_neg hp]

/-- Python `str.replace(old, new)` (line 153), including the empty-pattern
case, where Python inserts `new` before every character and at the end. -/
def pyReplace (old new s : Str) : Str :=
  if old = [] then new ++ s.foldr (fun c acc => c :: new ++ acc) []
  else pyReplaceNE old new s

/-- Result of one in-place patch attempt: the boolean the function returns,
the resulting file state, and whether a write was performed. -/
structure PatchResult where
  success : Bool
  file : Option Str
  wrote : Bool
deriving DecidableEq

/-- Shallow embedding of `update_popup_html` (lines 119-160) as a pure
function from the models and the current file state (`none` = file missing)
to the patch outcome. A missing file or an unmatched pattern returns `False`
without writing; otherwise `content.replace(old_select, new_select)` is
written back (note: `str.replace` replaces every occurrence of the matched
text, not only the matched span). -/
def update_popup_html (models : List ApiModel) (file : Option Str) : PatchResult :=
  match file with
  | none => ⟨false, none, false⟩
  | some content =>
    match selectSpan content with
    | none => ⟨false, some content, false⟩
    | some (a, b) =>
      let old_select := (content.drop a).take (b - a)
      ⟨true, some (pyReplace old_select (new_select_block models) content), true⟩

/-- Shallow embedding of `update_content_js_model_mapping` (lines 162-213).
A missing file or an unmatched pattern returns `False` without writing;
otherwise `re.sub(pattern, new_mapping + '\n', content)` is written back
(every match of the pattern is replaced). -/
def update_content_js_model_mapping (models : List ApiModel) (file : Option Str) :
    PatchResult :=
  match file with
  | none => ⟨false, none, false⟩
  | some content =>
    match contentSpan content with
    | none => ⟨false, some content, false⟩
    | some _ =>
      ⟨true, some (reSubModelMapping (new_model_mapping models ++ ['\n']) content), true⟩

/-- One element of the `models.json` array (lines 221-230). `Option` fields
are written as-is by `model.get(key)` with no default, so an absent key
serializes as JSON `null`; the remaining fields carry the explicit defaults
of the code (`False`, `1.0`, `[]`). -/
structure ModelsJsonEntry where
  model_id : Option Str
  name : Option Str
  description : Option Str
  can_be_finetuned : Bool
  token_cost_factor : ℚ
  languages : List ApiLang
  can_do_text_to_speech : Bool
  can_do_voice_conversion : Bool
deriving DecidableEq

/-- Entry built for one model by `create_models_json`. -/
def modelsJsonEntry (m : ApiModel) : ModelsJsonEntry :=
  ⟨m.model_id, m.name, m.description, m.can_be_finetuned.getD false,
    m.token_cost_factor.getD 1, m.languages.getD [],
    m.can_do_text_to_speech.getD false, m.can_do_voice_conversion.getD false⟩

/-- Shallow embedding of `create_models_json` (lines 215-237): the array
written to `models.json`. -/
def create_models_json (models : List ApiModel) : List ModelsJsonEntry :=
  models.map modelsJsonEntry

/-- One element of the `voices.json` array (lines 245-254): `voice_id`,
`name` and `category` are read with no default (absent key serializes as
`null`); `description` and `preview_url` default to `""`, `labels` and
`settings` to `{}`, `available_for_tiers` to `[]`. -/
structure VoicesJsonEntry where
  voice_id : Option Str
  name : Option Str
  category : Option Str
  description : Str
  labels : JsonObj
  preview_url : Str
  available_for_tiers : List Str
  settings : JsonObj
deriving DecidableEq

/-- Entry built for one voice by `create_voices_json`. -/
def voicesJsonEntry (v : ApiVoice) : VoicesJsonEntry :=
  ⟨v.voice_id, v.name, v.category, v.description.getD [], v.labels.getD [],
    v.preview_url.getD [], v.available_for_tiers.getD [], v.settings.getD []⟩

/-- Shallow embedding of `create_voices_json` (lines 239-261). -/
def create_voices_json (voices : List ApiVoice) : List VoicesJsonEntry :=
  voices.map voicesJsonEntry

/-- The `language_id`/`name` pair the report writer prints for one language
entry via `item['language_id']` and `item['name']` (line 308); `none` models
the `KeyError` raised when either key is absent. -/
def langPair (l : ApiLang) : Option (Str × Str) :=
  match l.language_id, l.name with
  | some i, some n => some (i, n)
  | _, _ => none

/-- Sequentially collect the language pairs of one model's `languages` list,
failing at the first entry that raises. -/
def langPairs : List ApiLang → Option (List (Str × Str))
  | [] => some []
  | l :: ls =>
    match langPair l, langPairs ls with
    | some p, some ps => some (p :: ps)
    | _, _ => none

/-- The data the report writer prints for one model (lines 305-309): name and
id (printed as-is, `None` included), description with default `'N/A'`,
the joined language pairs, and the token cost with default `1.0`. -/
structure ReportModelSection where
  name : Option Str
  model_id : Option Str
  description : Str
  languages : List (Str × Str)
  token_cost_factor : ℚ
deriving DecidableEq

/-- Report section for one model, `none` when printing its languages raises
`KeyError`. -/
def reportModelSection (m : ApiModel) : Option ReportModelSection :=
  (langPairs (m.languages.getD [])).map (fun ls =>
    ⟨m.name, m.model_id, m.description.getD "N/A".data, ls,
      m.token_cost_factor.getD 1⟩)

/-- Sequentially build the report sections of all models, failing at the
first model whose languages raise. -/
def reportSections : List ApiModel → Option (List ReportModelSection)
  | [] => some []
  | m :: rest =>
    match reportModelSection m, reportSections rest with
    | some s, some ss => some (s :: ss)
    | _, _ => none

/-- The subscription block of the report (lines 312-317): `tier` with default
`'N/A'`; the numeric fields are printed as-is or as `'N/A'` when absent
(kept as `Option`); the cloning flags default to `False`. -/
structure ReportSubSection where
  tier : Str
  character_limit : Option Int
  character_count : Option Int
  can_use_instant_voice_cloning : Bool
  can_use_professional_voice_cloning : Bool
deriving DecidableEq

/-- Subscription section built when `subscription` is truthy (nonempty). -/
def reportSubSection (s : ApiSubscription) : ReportSubSection :=
  ⟨s.tier.getD "N/A".data, s.character_limit, s.character_count,
    s.can_use_instant_voice_cloning.getD false,
    s.can_use_professional_voice_cloning.getD false⟩

/-- The content of `update_report.txt`, modelled structurally: the embedded
run date, the two counts, the per-model sections in list order, and the
subscription section when the subscription dict is truthy. -/
structure UpdateReport where
  date : Str
  modelsFound : Nat
  voicesFound : Nat
  modelSections : List ReportModelSection
  subscriptionSection : Option ReportSubSection
deriving DecidableEq

/-- Shallow embedding of `create_update_report` (lines 293-320); `now` is the
timestamp `datetime.datetime.now().strftime(...)` formatted at the time of
the run. `none` models the uncaught `KeyError` raised while printing a
language entry that lacks `language_id` or `name`. -/
def create_update_report (models : List ApiModel) (voices : List ApiVoice)
    (subscription : Option ApiSubscription) (now : Str) : Option UpdateReport :=
  (reportSections models).map (fun secs =>
    ⟨now, models.length, voices.length, secs, subscription.map reportSubSection⟩)

/-- The languages of every model carry both keys the report writer reads;
exactly the condition under which the report writer cannot raise. -/
def reportSafe (models : List ApiModel) : Bool :=
  models.all (fun m =>
    (m.languages.getD []).all (fun l => l.language_id.isSome && l.name.isSome))

/-- The files the updater reads and writes, each `none` when absent. The
manifest file is represented by its optional `version` field (the rest of the
manifest is carried through `json.load`/`json.dump` unchanged); the JSON
snapshots and the report by the structured data serialized into them. -/
structure ExtensionFiles where
  popupHtml : Option Str
  contentJs : Option Str
  modelsJson : Option (List ModelsJsonEntry)
  voicesJson : Option (List VoicesJsonEntry)
  manifest : Option (Option Str)
  updateReport : Option UpdateReport
deriving DecidableEq

/-- Shallow embedding of `run_update` (lines 322-373) given the already
fetched API data. An empty model list aborts with `False` before any write;
otherwise both patches run (their failures only clear the success flag), the
two JSON snapshots are written unconditionally, the manifest bump is
attempted with its result ignored, and the report is written. `none` models
an exception escaping `run_update` (the report writer's `KeyError`). -/
def run_update (models : List ApiModel) (voices : List ApiVoice)
    (subscription : Option ApiSubscription) (now : Str) (fs : ExtensionFiles) :
    Option (Bool × ExtensionFiles) :=
  if models = [] then some (false, fs)
  else
    let r1 := update_popup_html models fs.popupHtml
    let r2 := update_content_js_model_mapping models fs.contentJs
    let manifest2 := (update_manifest_version_file fs.manifest).2
    match create_update_report models voices subscription now with
    | none => none
    | some rep =>
      some (r1.success && r2.success,
        ⟨r1.file, r2.file, some (create_models_json models),
          some (create_voices_json voices), manifest2, some rep⟩)

/-- One piece of a parsed `re.sub` replacement template: a literal chunk, or
a reference to a capture group. -/
inductive TemplItem where
  | lit : Str → TemplItem
  | group : Nat → TemplItem
deriving DecidableEq

/-- Whether a character is an octal digit (`re._parser.OCTDIGITS`). -/
def isOctDigit (c : Char) : Bool := '0' ≤ c && c ≤ '7'

/-- Numeric value of a decimal or octal digit character. -/
def digitVal (c : Char) : Nat := c.toNat - 48

/-- ASCII model of Python `str.isidentifier`, used by `parse_template` to
classify a `\g<...>` group name. -/
def isPyIdentifier (s : Str) : Bool :=
  match s with
  | [] => false
  | c :: rest => (c.isAlpha || c = '_') && rest.all (fun d => d.isAlphanum || d = '_')

/-- The `getuntil(">")` loop of the template tokenizer: collect the group
name of a `\g<...>` reference up to the closing `>`. The tokenizer reads a
backslash together with its following character (so an escaped `>` joins the
name), raises on a trailing backslash, and raises when the input ends before
`>` — both raising cases are `none`. Returns the name and the rest of the
template. -/
def getUntilGt : Str → Option (Str × Str)
  | [] => none
  | '\\' :: rest =>
    match rest with
    | [] => none
    | c :: rest2 => (getUntilGt rest2).map (fun p => ('\\' :: c :: p.1, p.2))
  | '>' :: rest => some ([], rest)
  | c :: rest => (getUntilGt rest).map (fun p => (c :: p.1, p.2))

/-- Python `re._parser.parse_template` specialised to the content.js pattern
(one capture group, no named groups), as run by `re.sub` on the replacement
before substituting: processing of one escape sequence, given the text after
the backslash; returns the produced template item and the remaining text.
`none` models every uncaught exception this step can raise: a
trailing backslash (`bad escape (end of pattern)`), a bad ASCII-letter
escape (`bad escape`), a group reference above the pattern's single group
(`invalid group reference`, from `\2`-`\99` or `\g<n>` with `n > 1`), an
out-of-range three-digit octal escape, a malformed `\g` reference
(`missing <`, missing or unterminated name, `bad character in group name`),
and a named group (`IndexError: unknown group name`, since the pattern has
none). The surviving escapes follow the source: `\a \b \f \n \r \t \v`
and `\\` become their characters, `\0` with up to two octal digits is an
octal escape, `\1` (or a two-digit `\1x` when the three-octal-digit rule
does not fire — which errors, being above group 1) and `\g<0>`/`\g<1>`
are group references, and a backslash before any other non-letter character
is kept literally together with that character. -/
def parseEscStep : Str → Option (TemplItem × Str)
  | [] => none
  | e :: rest1 =>
    if e = 'g' then
      match rest1 with
      | '<' :: rest2 =>
        match getUntilGt rest2 with
        | none => none
        | some (name, rest3) =>
          if name = [] then none
          else if isPyIdentifier name then none
          else
            match pyInt name with
            | none => none
            | some i =>
              if i < 0 then none
              else if 1 < i then none
              else some (TemplItem.group i.toNat, rest3)
      | _ => none
    else if e = '0' then
      let ds := (rest1.takeWhile isOctDigit).take 2
      some (TemplItem.lit [Char.ofNat (ds.foldl (fun a d => a * 8 + digitVal d) 0)],
        rest1.drop ds.length)
    else if e.isDigit then
      match rest1 with
      | d :: rest2 =>
        if d.isDigit then
          match rest2 with
          | f :: rest3 =>
            if isOctDigit e && isOctDigit d && isOctDigit f then
              let v := digitVal e * 64 + digitVal d * 8 + digitVal f
              if 255 < v then none
              else some (TemplItem.lit [Char.ofNat v], rest3)
            else
              if 1 < digitVal e * 10 + digitVal d then none
              else some (TemplItem.group (digitVal e * 10 + digitVal d), rest2)
          | [] =>
            if 1 < digitVal e * 10 + digitVal d then none
            else some (TemplItem.group (digitVal e * 10 + digitVal d), [])
        else
          if 1 < digitVal e then none
          else some (TemplItem.group (digitVal e), rest1)
      | [] =>
        if 1 < digitVal e then none
        else some (TemplItem.group (digitVal e), [])
    else if e = 'a' then some (TemplItem.lit [Char.ofNat 7], rest1)
    else if e = 'b' then some (TemplItem.lit [Char.ofNat 8], rest1)
    else if e = 'f' then some (TemplItem.lit [Char.ofNat 12], rest1)
    else if e = 'n' then some (TemplItem.lit [Char.ofNat 10], rest1)
    else if e = 'r' then some (TemplItem.lit [Char.ofNat 13], rest1)
    else if e = 't' then some (TemplItem.lit [Char.ofNat 9], rest1)
    else if e = 'v' then some (TemplItem.lit [Char.ofNat 11], rest1)
    else if e = '\\' then some (TemplItem.lit ['\\'], rest1)
    else if e.isAlpha then none
    else some (TemplItem.lit ['\\', e], rest1)

/-- Recursion over the replacement template: a backslash hands the rest to
`parseEscStep` and continues after the consumed escape; any other character
is a literal. The fuel only bounds the depth (every step consumes at least
one character) and is set to the template length by the wrapper. -/
def parseTAux : Nat → Str → Option (List TemplItem)
  | _, [] => some []
  | 0, _ :: _ => none
  | fuel + 1, c :: rest =>
    if c = '\\' then
      match parseEscStep rest with
      | none => none
      | some (item, rest2) =>
        (parseTAux fuel rest2).map (fun items => item :: items)
    else (parseTAux fuel rest).map (fun items => TemplItem.lit [c] :: items)

/-- Python `re._parser.parse_template` on a replacement text, for the
content.js pattern; `none` models an uncaught exception. -/
def parse_template (t : Str) : Option (List TemplItem) := parseTAux t.length t

/-- Expand a parsed template at one match. Group references resolve to the
matched text: the pattern's only capture group wraps the entire pattern, so
group `1` and the whole-match group `0` both denote the full matched
span. -/
def expandTemplate (items : List TemplItem) (matched : Str) : Str :=
  match items with
  | [] => []
  | TemplItem.lit l :: rest => l ++ expandTemplate rest matched
  | TemplItem.group _ :: rest => matched ++ expandTemplate rest matched

/-- Recursion core of `re.sub` with a parsed template: like `reSubAux`, but
each match is replaced by the template expanded at that match's text. -/
def reSubExpandAux (items : List TemplItem) : Nat → Str → Str
  | 0, s => s
  | fuel + 1, s =>
    match contentSpan s with
    | none => s
    | some (a, b) =>
      s.take a ++ expandTemplate items ((s.drop a).take (b - a))
        ++ reSubExpandAux items fuel (s.drop b)

/-- Full embedding of `update_content_js_model_mapping` (lines 162-213)
including `re.sub`'s replacement-template processing: when the pattern is
found, the template `new_mapping + '\n'` is parsed first, and a template
error (`re.error`/`IndexError`) escapes the function uncaught — the outer
`none`. Otherwise each match is replaced by the expanded template. -/
def update_content_js_model_mapping_full (models : List ApiModel)
    (file : Option Str) : Option PatchResult :=
  match file with
  | none => some ⟨false, none, false⟩
  | some content =>
    match contentSpan content with
    | none => some ⟨false, some content, false⟩
    | some _ =>
      match parse_template (new_model_mapping models ++ ['\n']) with
      | none => none
      | some items =>
        some ⟨true, some (reSubExpandAux items content.length content), true⟩

/-- Full embedding of `run_update` (lines 322-373) with the content.js patch
modelled including its template-error path: `none` now covers both uncaught
exceptions the process can raise — `re.sub`'s template error at line 206
(after the popup patch, before the snapshots) and the report writer's
`KeyError` at line 308. -/
def run_update_full (models : List ApiModel) (voices : List ApiVoice)
    (subscription : Option ApiSubscription) (now : Str) (fs : ExtensionFiles) :
    Option (Bool × ExtensionFiles) :=
  if models = [] then some (false, fs)
  else
    let r1 := update_popup_html models fs.popupHtml
    match update_content_js_model_mapping_full models fs.contentJs with
    | none => none
    | some r2 =>
      match create_update_report models voices subscription now with
      | none => none
      | some rep =>
        some (r1.success && r2.success,
          ⟨r1.file, r2.file, some (create_models_json models),
            some (create_voices_json voices),
            (update_manifest_version_file fs.manifest).2, some rep⟩)

/-- Python `s[-4:]`: the last `min 4 (length s)` characters. -/
def lastFour (s : Str) : Str := s.drop (s.length - 4)

/-- The two values `main` prints immediately after the masked prompt
(line 385, `print(len(api_key), api_key[-4:])`), where the key is the prompt
input after `.strip()` (line 384). -/
def mainKeyEcho (raw : Str) : Nat × Str :=
  let k := pyStrip raw
  (k.length, lastFour k)

/-- C1: For every target file whose current text does not contain the
expected delimiter pattern (the `<select id="mode">...</select>` block for
popup.html, the `const model_id =` declaration followed by a newline for
content.js), the patch operation leaves that file byte-for-byte unchanged
and returns failure; the file is overwritten if and only if the pattern was
found (a missing file also fails without a write). -/
theorem c1_patch_requires_marker :
    (∀ models, update_popup_html models none = ⟨false, none, false⟩ ∧
      update_content_js_model_mapping models none = ⟨false, none, false⟩) ∧
    (∀ models content, selectSpan content = none →
      update_popup_html models (some content) = ⟨false, some content, false⟩) ∧
    (∀ models content, contentSpan content = none →
      update_content_js_model_mapping models (some content) = ⟨false, some content, false⟩) ∧
    (∀ models content,
      (update_popup_html models (some content)).wrote = (selectSpan content).isSome ∧
      (update_content_js_model_mapping models (some content)).wrote =
        (contentSpan content).isSome) := by
  refine ⟨fun models => ⟨rfl, rfl⟩, ?_, ?_, ?_⟩
  · intro models content h
    simp [update_popup_html, h]
  · intro models content h
    simp [update_content_js_model_mapping, h]
  · intro models content
    constructor
    · cases h : selectSpan content with
      | none => simp [update_popup_html, h]
      | some ab => cases ab with | mk a b => simp [update_popup_html, h]
    · cases h : contentSpan content with
      | none => simp [update_content_js_model_mapping, h]
      | some ab => cases ab with | mk a b => simp [update_content_js_model_mapping, h]

/-- Witness for C1 at a concrete file lacking both markers. -/
theorem c1_patch_requires_marker_witness :
    update_popup_html [] (some "no marker here".data) =
      ⟨false, some "no marker here".data, false⟩ ∧
    update_content_js_model_mapping [] (some "plain text".data) =
      ⟨false, some "plain text".data, false⟩ :=
  ⟨c1_patch_requires_marker.2.1 [] "no marker here".data (by decide),
   c1_patch_requires_marker.2.2.1 [] "plain text".data (by decide)⟩

/-- C2 counterexample: the claim says every version string that is not three
dot-separated numeric parts is left unchanged, but the code validates only
the third part, so `"a.b.3"` (non-numeric first parts) is rewritten to
`"a.b.4"` and the manifest is overwritten. -/
theorem c2_counterexample :
    update_manifest_version "a.b.3".data = some "a.b.4".data ∧
    update_manifest_version_file (some (some "a.b.3".data)) =
      (true, some (some "a.b.4".data)) := by
  constructor
  · rfl
  · rfl

/-- C2 (amended): if the version splits on `.` into exactly three parts and
the third parses as a Python integer, the third part is replaced by its
successor and the version rewritten, the first two parts copied without
validation; if the split does not have exactly three parts, or the third
part does not parse as an integer, the manifest is left unchanged and the
operation reports a no-op, not an error. -/
theorem c2_version_bump_amended :
    (∀ (v p0 p1 p2 : Str) (n : Int), splitDot v = [p0, p1, p2] → pyInt p2 = some n →
      update_manifest_version v =
        some (p0 ++ ".".data ++ p1 ++ ".".data ++ intStr (n + 1))) ∧
    (∀ v : Str, (∀ p0 p1 p2, splitDot v = [p0, p1, p2] → pyInt p2 = none) →
      update_manifest_version v = none) ∧
    (∀ v? : Option Str, update_manifest_version (v?.getD "1.0.0".data) = none →
      update_manifest_version_file (some v?) = (false, some v?)) := by
  refine ⟨?_, ?_, ?_⟩
  · intro v p0 p1 p2 n hs hp
    simp [update_manifest_version, hs, hp]
  · intro v h
    unfold update_manifest_version
    split
    · next p0 p1 p2 heq => rw [h p0 p1 p2 heq]
    · rfl
  · intro v? h
    simp [update_manifest_version_file, h]

/-- Witness for C2 (amended): `"1.2.3"` becomes `"1.2.4"`, `"x.y"` is a
no-op, and a manifest holding `"1.2.x"` is left unchanged. -/
theorem c2_version_bump_amended_witness :
    update_manifest_version "1.2.3".data =
      some ("1".data ++ ".".data ++ "2".data ++ ".".data ++ intStr (3 + 1)) ∧
    update_manifest_version "x.y".data = none ∧
    update_manifest_version_file (some (some "1.2.x".data)) =
      (false, some (some "1.2.x".data)) :=
  ⟨c2_version_bump_amended.1 "1.2.3".data "1".data "2".data "3".data 3
      (by decide) (by decide),
   c2_version_bump_amended.2.1 "x.y".data
      (by intro p0 p1 p2 h; simp [splitDot] at h),
   c2_version_bump_amended.2.2 (some "1.2.x".data) (by decide)⟩

/-- Positions of the generated lines: the body of the content.js mapping
built from index `j` onwards maps position `i` to the line for model `i`
with running index `j + i`. -/
theorem mappingBody_getElem? (len : Nat) :
    ∀ (ms : List ApiModel) (j i : Nat),
      (mappingBody len j ms)[i]? = ms[i]?.map (fun m => mappingLine len (j + i) m)
  | [], j, i => by simp [mappingBody]
  | m :: rest, j, 0 => by simp [mappingBody]
  | m :: rest, j, i + 1 => by
    have h := mappingBody_getElem? len rest (j + 1) i
    have harith : j + 1 + i = j + (i + 1) := by omega
    simp [mappingBody, h, harith]

/-- C4: for every model list, the generated replacement text contains exactly
one entry per model, in the same order as the input list: the dropdown block
has one `<option>` line per model, and the content.js mapping block has one
line per model after its header, the line at position `i` being built from
the model at position `i`. -/
theorem c4_one_entry_per_model :
    ∀ models : List ApiModel,
      (options_html models).length = models.length ∧
      (∀ i : Nat, (options_html models)[i]? = models[i]?.map optionLine) ∧
      (model_mapping_lines models).length = models.length + 1 ∧
      (∀ i : Nat, (mappingBody models.length 0 models)[i]? =
        models[i]?.map (fun m => mappingLine models.length i m)) := by
  intro models
  refine ⟨by simp [options_html], ?_, ?_, ?_⟩
  · intro i
    simp [options_html]
  · have hlen : ∀ (len j : Nat) (ms : List ApiModel),
        (mappingBody len j ms).length = ms.length := by
      intro len j ms
      induction ms generalizing j with
      | nil => simp [mappingBody]
      | cons m rest ih => simp [mappingBody, ih]
    simp [model_mapping_lines, hlen]
  · intro i
    have h := mappingBody_getElem? models.length models 0 i
    simpa using h

/-- C10: immediately after reading the secret key through the masked prompt,
`main` prints the stripped key's length and its last four characters
(`print(len(api_key), api_key[-4:])`); for every non-empty key the printed
slice is a non-empty suffix of the key of length `min 4 (length key)` — part
of the secret always reaches standard output. -/
theorem c10_key_echo_disclosure :
    ∀ raw : Str, pyStrip raw ≠ [] →
      (mainKeyEcho raw).1 = (pyStrip raw).length ∧
      (mainKeyEcho raw).2 <:+ pyStrip raw ∧
      (mainKeyEcho raw).2 ≠ [] ∧
      (mainKeyEcho raw).2.length = min 4 (pyStrip raw).length := by
  intro raw h
  have hpos : 0 < (pyStrip raw).length := List.length_pos.mpr h
  refine ⟨rfl, List.drop_suffix _ _, ?_, ?_⟩
  · have hlen : 0 < ((pyStrip raw).drop ((pyStrip raw).length - 4)).length := by
      simp only [List.length_drop]
      omega
    exact List.ne_nil_of_length_pos hlen
  · simp only [mainKeyEcho, lastFour, List.length_drop]
    omega

/-- Witness for C10 at a concrete prompt input with surrounding whitespace. -/
theorem c10_key_echo_disclosure_witness :
    (mainKeyEcho " sk-test-abcd \n".data).1 = (pyStrip " sk-test-abcd \n".data).length ∧
    (mainKeyEcho " sk-test-abcd \n".data).2 <:+ pyStrip " sk-test-abcd \n".data ∧
    (mainKeyEcho " sk-test-abcd \n".data).2 ≠ [] ∧
    (mainKeyEcho " sk-test-abcd \n".data).2.length =
      min 4 (pyStrip " sk-test-abcd \n".data).length :=
  c10_key_echo_disclosure " sk-test-abcd \n".data (by decide)

theorem occCount_cons (pat : Str) (c : Char) (rest : Str) :
    occCount pat (c :: rest) =
      (if pat.isPrefixOf (c :: rest) then 1 else 0) + occCount pat rest := rfl

/-- Replacement is the identity on a text with no occurrence of the
pattern. -/
theorem pyReplaceNE_of_no_occ {pat new : Str} :
    ∀ {s : Str}, occCount pat s = 0 → pyReplaceNE pat new s = s := by
  intro s
  induction s with
  | nil => intro _; rfl
  | cons c rest ih =>
    intro h
    rw [occCount_cons] at h
    by_cases hp : pat.isPrefixOf (c :: rest) = true
    · rw [if_pos hp] at h; omega
    · rw [if_neg hp] at h
      have hp' : pat.isPrefixOf (c :: rest) = false := by
        revert hp; cases pat.isPrefixOf (c :: rest) <;> simp
      have hr : occCount pat rest = 0 := by omega
      rw [pyReplaceNE_cons]
      simp [hp', ih hr]

/-- A text with no occurrence of the pattern keeps that property under
`drop`. -/
theorem occCount_drop_zero {pat : Str} :
    ∀ (s : Str) (k : Nat), occCount pat s = 0 → occCount pat (s.drop k) = 0 := by
  intro s
  induction s with
  | nil => intro k h; simpa using h
  | cons c rest ih =>
    intro k h
    cases k with
    | zero => simpa using h
    | succ k =>
      simp only [List.drop_succ_cons]
      have hr : occCount pat rest = 0 := by
        rw [occCount_cons] at h
        by_cases hp : pat.isPrefixOf (c :: rest) = true
        · rw [if_pos hp] at h; omega
        · rw [if_neg hp] at h; omega
      exact ih k hr

/-- A text of the shape `pre ++ pat ++ post` has at least one occurrence of
`pat`. -/
theorem occCount_append_pos {pat : Str} (hne : pat ≠ []) :
    ∀ (pre post : Str), 1 ≤ occCount pat (pre ++ (pat ++ post)) := by
  intro pre
  induction pre with
  | nil =>
    intro post
    obtain ⟨p, pt, rfl⟩ : ∃ p pt, pat = p :: pt := by
      cases pat with
      | nil => exact absurd rfl hne
      | cons p pt => exact ⟨p, pt, rfl⟩
    have hp : (p :: pt).isPrefixOf ((p :: pt) ++ post) = true := by
      rw [ List.isPrefixOf_iff_prefix]
      exact List.prefix_append _ _
    simp only [List.nil_append, List.cons_append] at hp ⊢
    rw [occCount_cons, if_pos hp]
    omega
  | cons c pre' ih =>
    intro post
    simp only [List.cons_append]
    rw [occCount_cons]
    have := ih post
    by_cases hp : pat.isPrefixOf (c :: (pre' ++ (pat ++ post))) = true
    · rw [if_pos hp]; omega
    · rw [if_neg hp]; omega

/-- Python `str.replace` on a text holding exactly one occurrence of a
nonempty pattern replaces exactly that occurrence. -/
theorem pyReplaceNE_single {pat new : Str} (hne : pat ≠ []) :
    ∀ (pre post : Str), occCount pat (pre ++ (pat ++ post)) = 1 →
      pyReplaceNE pat new (pre ++ (pat ++ post)) = pre ++ (new ++ post) := by
  intro pre
  induction pre with
  | nil =>
    intro post h
    simp only [List.nil_append] at h ⊢
    obtain ⟨p, pt, rfl⟩ : ∃ p pt, pat = p :: pt := by
      cases pat with
      | nil => exact absurd rfl hne
      | cons p pt => exact ⟨p, pt, rfl⟩
    have hp : (p :: pt).isPrefixOf ((p :: pt) ++ post) = true := by
      rw [ List.isPrefixOf_iff_prefix]
      exact List.prefix_append _ _
    simp only [List.cons_append] at hp h ⊢
    rw [occCount_cons, if_pos hp] at h
    have hocc : occCount (p :: pt) (pt ++ post) = 0 := by omega
    have hpost : occCount (p :: pt) post = 0 := by
      have := occCount_drop_zero (pt ++ post) pt.length hocc
      rwa [List.drop_left] at this
    rw [pyReplaceNE_cons]
    simp only [hp, List.isEmpty_cons, Bool.not_false, Bool.and_self, if_true]
    rw [List.length_cons]
    simp only [Nat.add_sub_cancel]
    rw [List.drop_left, pyReplaceNE_of_no_occ hpost]
  | cons c pre' ih =>
    intro post h
    simp only [List.cons_append] at h ⊢
    rw [occCount_cons] at h
    have hge := occCount_append_pos hne pre' post
    have hp : pat.isPrefixOf (c :: (pre' ++ (pat ++ post))) = false := by
      by_cases hb : pat.isPrefixOf (c :: (pre' ++ (pat ++ post))) = true
      · rw [if_pos hb] at h; omega
      · revert hb; cases pat.isPrefixOf (c :: (pre' ++ (pat ++ post))) <;> simp
    rw [hp] at h
    simp only [Bool.false_eq_true, if_false, Nat.zero_add] at h
    rw [pyReplaceNE_cons]
    simp only [hp, Bool.false_and, Bool.false_eq_true, if_false]
    rw [ih post h]

/-- Unfolding equation of `reSubModelMapping` when the pattern does not
match. -/
theorem reSub_none {repl s : Str} (h : contentSpan s = none) :
    reSubModelMapping repl s = s := by
  unfold reSubModelMapping
  cases s with
  | nil => rfl
  | cons c rest => simp [reSubAux, h]

/-- Unfolding equation of `reSubModelMapping` at a match: replace the span
and continue after it. -/
theorem reSub_some {repl s : Str} {a b : Nat} (h : contentSpan s = some (a, b)) :
    reSubModelMapping repl s = s.take a ++ repl ++ reSubModelMapping repl (s.drop b) := by
  unfold reSubModelMapping
  cases s with
  | nil => rw [contentSpan_nil] at h; exact absurd h (by simp)
  | cons c rest =>
    have hb := contentSpan_bpos h
    simp only [List.length_cons, reSubAux, h]
    rw [reSubAux_fuel_irrel repl rest.length ((c :: rest).drop b).length ((c :: rest).drop b)
      (by simp only [List.length_drop, List.length_cons]; omega) (le_refl _)]

/-- Concrete TTS model used by the counterexamples and witnesses. -/
def modelA : ApiModel :=
  ⟨some "m1".data, some "M One".data, none, none, none, some [], some true, none⟩

/-- A select block that appears twice in `dupContent`. -/
def dupSelectBlock : Str := "<select id=\"mode\">x</select>".data

/-- A popup.html text holding two identical select blocks. -/
def dupContent : Str := dupSelectBlock ++ "\n".data ++ dupSelectBlock

/-- C5 counterexample: the claim says the patch replaces exactly the matched
span, every byte outside it unchanged. With two identical select blocks the
regex matches only the first (span `(0, 28)`), but `str.replace` also
rewrites the second, so bytes outside the matched span change. -/
theorem c5_counterexample :
    selectSpan dupContent = some (0, dupSelectBlock.length) ∧
    (update_popup_html [modelA] (some dupContent)).file =
      some (new_select_block [modelA] ++ "\n".data ++ new_select_block [modelA]) ∧
    new_select_block [modelA] ++ "\n".data ++ new_select_block [modelA] ≠
      new_select_block [modelA] ++ "\n".data ++ dupSelectBlock := by
  refine ⟨by decide, by decide, by decide⟩

/-- C5 (amended): the patch replaces the matched span with the generated
block, and additionally every other occurrence of the matched text
(popup.html, `str.replace`) or of the pattern (content.js, `re.sub`); when
the matched text occurs exactly once (popup.html), or no further match
follows the span (content.js), every byte outside the matched span is
unchanged in the written result. -/
theorem c5_replaces_span_amended :
    (∀ (models : List ApiModel) (pre mid post : Str),
      selectSpan (pre ++ ((selectOpenTag ++ mid ++ selectCloseTag) ++ post)) =
        some (pre.length, pre.length + (selectOpenTag ++ mid ++ selectCloseTag).length) →
      occCount (selectOpenTag ++ mid ++ selectCloseTag)
        (pre ++ ((selectOpenTag ++ mid ++ selectCloseTag) ++ post)) = 1 →
      (update_popup_html models
          (some (pre ++ ((selectOpenTag ++ mid ++ selectCloseTag) ++ post)))).file =
        some (pre ++ (new_select_block models ++ post))) ∧
    (∀ (models : List ApiModel) (pre matched post : Str),
      contentSpan (pre ++ (matched ++ post)) =
        some (pre.length, pre.length + matched.length) →
      contentSpan post = none →
      (update_content_js_model_mapping models (some (pre ++ (matched ++ post)))).file =
        some (pre ++ ((new_model_mapping models ++ ['\n']) ++ post))) := by
  constructor
  · intro models pre mid post hspan hocc
    have hXne : selectOpenTag ++ mid ++ selectCloseTag ≠ [] := by
      simp [selectOpenTag]
    simp only [update_popup_html, hspan]
    have h1 : (pre ++ ((selectOpenTag ++ mid ++ selectCloseTag) ++ post)).drop pre.length =
        (selectOpenTag ++ mid ++ selectCloseTag) ++ post := List.drop_left _ _
    have h2 : pre.length + (selectOpenTag ++ mid ++ selectCloseTag).length - pre.length =
        (selectOpenTag ++ mid ++ selectCloseTag).length := by omega
    rw [h1, h2, List.take_left]
    unfold pyReplace
    rw [if_neg hXne]
    rw [pyReplaceNE_single hXne pre post hocc]
  · intro models pre matched post hspan hpost
    simp only [update_content_js_model_mapping, hspan]
    rw [reSub_some hspan]
    have h1 : (pre ++ (matched ++ post)).take pre.length = pre := List.take_left _ _
    have h2 : (pre ++ (matched ++ post)).drop (pre.length + matched.length) = post := by
      rw [← List.append_assoc,
        show pre.length + matched.length = (pre ++ matched).length by simp]
      exact List.drop_left _ _
    rw [h1, h2, reSub_none hpost]
    simp

/-- Witness for C5 (amended) at concrete files holding the marker exactly
once. -/
theorem c5_replaces_span_amended_witness :
    (update_popup_html [modelA]
        (some ("A".data ++ ((selectOpenTag ++ "x".data ++ selectCloseTag) ++ "B".data)))).file =
      some ("A".data ++ (new_select_block [modelA] ++ "B".data)) ∧
    (update_content_js_model_mapping [modelA]
        (some ("z;\n  ".data ++ ("const model_id =\n    old;\n".data ++ "rest".data)))).file =
      some ("z;\n  ".data ++ ((new_model_mapping [modelA] ++ ['\n']) ++ "rest".data)) :=
  ⟨c5_replaces_span_amended.1 [modelA] "A".data "x".data "B".data (by decide) (by decide),
   c5_replaces_span_amended.2 [modelA] "z;\n  ".data "const model_id =\n    old;\n".data
      "rest".data (by decide) (by decide)⟩

/-- Fixed run timestamp used by the concrete runs. -/
def now0 : Str := "2026-01-01 00:00:00".data

/-- Initial popup.html of the concrete runs, holding the marker once. -/
def popup0 : Str := "<html><select id=\"mode\">old</select></html>".data

/-- Initial content.js of the concrete runs, holding the declaration once. -/
def cjs0 : Str := "var a;\n  const model_id =\n    old;\nvar b;\n".data

/-- Initial file state of the concrete runs: both patch targets present,
manifest at version `1.0.0`, no generated files yet. -/
def fs0 : ExtensionFiles :=
  ⟨some popup0, some cjs0, none, none, some (some "1.0.0".data), none⟩

/-- File state after the first concrete run. -/
def fsA1 : ExtensionFiles :=
  ((run_update [modelA] [] none now0 fs0).getD (false, fs0)).2

/-- File state after the second concrete run on identical API data. -/
def fsA2 : ExtensionFiles :=
  ((run_update [modelA] [] none now0 fsA1).getD (false, fsA1)).2

/-- C3 counterexample: the claim says a second run with identical API data
leaves every output file bit-for-bit unchanged. Both concrete runs succeed,
yet the second run bumps the manifest version again (`1.0.1` to `1.0.2`) and
rewrites content.js differently (the pattern re-matches only a prefix of the
previously generated mapping). -/
theorem c3_counterexample :
    run_update [modelA] [] none now0 fs0 = some (true, fsA1) ∧
    run_update [modelA] [] none now0 fsA1 = some (true, fsA2) ∧
    fsA2.manifest ≠ fsA1.manifest ∧
    fsA2.contentJs ≠ fsA1.contentJs := by
  refine ⟨by rfl, by rfl, by decide, by decide⟩

/-- C3 (amended): with the run timestamp held fixed, a second run with
identical API data reproduces `models.json`, `voices.json` and
`update_report.txt` bit-for-bit (they depend only on the API data and the
timestamp), but the process is not idempotent: each successful run bumps the
manifest version again and re-patches content.js non-identically, while
popup.html is stable from the first successful patch on. -/
theorem c3_rerun_not_idempotent_amended :
    (∀ (models : List ApiModel) (voices : List ApiVoice)
        (sub : Option ApiSubscription) (now : Str) (fs : ExtensionFiles)
        (ok1 : Bool) (fs1 : ExtensionFiles) (ok2 : Bool) (fs2 : ExtensionFiles),
      run_update models voices sub now fs = some (ok1, fs1) →
      run_update models voices sub now fs1 = some (ok2, fs2) →
      fs2.modelsJson = fs1.modelsJson ∧ fs2.voicesJson = fs1.voicesJson ∧
        fs2.updateReport = fs1.updateReport) ∧
    (fsA2.manifest ≠ fsA1.manifest ∧ fsA2.contentJs ≠ fsA1.contentJs ∧
      fsA2.popupHtml = fsA1.popupHtml) := by
  constructor
  · intro models voices sub now fs ok1 fs1 ok2 fs2 h1 h2
    by_cases hm : models = []
    · subst hm
      have e1 : ∀ g : ExtensionFiles,
          run_update ([] : List ApiModel) voices sub now g = some (false, g) := by
        intro g
        simp [run_update]
      rw [e1 _] at h1
      simp only [Option.some.injEq, Prod.mk.injEq] at h1
      obtain ⟨-, h1b⟩ := h1
      subst h1b
      rw [e1 _] at h2
      simp only [Option.some.injEq, Prod.mk.injEq] at h2
      obtain ⟨-, h2b⟩ := h2
      subst h2b
      exact ⟨rfl, rfl, rfl⟩
    · simp only [run_update, if_neg hm] at h1 h2
      cases hr : create_update_report models voices sub now with
      | none =>
        rw [hr] at h1
        exact absurd h1 (by simp)
      | some rep =>
        rw [hr] at h1 h2
        simp only [Option.some.injEq, Prod.mk.injEq] at h1 h2
        rw [← h1.2, ← h2.2]
        exact ⟨rfl, rfl, rfl⟩
  · exact ⟨by decide, by decide, by decide⟩

/-- Witness for the universally quantified part of the amended C3 at the
concrete runs. -/
theorem c3_rerun_not_idempotent_amended_witness :
    fsA2.modelsJson = fsA1.modelsJson ∧ fsA2.voicesJson = fsA1.voicesJson ∧
      fsA2.updateReport = fsA1.updateReport :=
  c3_rerun_not_idempotent_amended.1 [modelA] [] none now0 fs0 true fsA1 true fsA2
    (by rfl) (by rfl)

/-- C6: an empty fetched model list aborts the run with failure before any
file is modified or written (the state is returned untouched); a nonempty
model list with an empty voice list and an empty (falsy) subscription does
not abort — the JSON snapshots and the report are still produced. -/
theorem c6_empty_models_abort :
    (∀ (voices : List ApiVoice) (sub : Option ApiSubscription) (now : Str)
        (fs : ExtensionFiles),
      run_update [] voices sub now fs = some (false, fs)) ∧
    (∀ (models : List ApiModel) (now : Str) (fs : ExtensionFiles)
        (rep : UpdateReport),
      models ≠ [] →
      create_update_report models [] none now = some rep →
      (run_update models [] none now fs).map
          (fun r => (r.2.modelsJson, r.2.voicesJson, r.2.updateReport)) =
        some (some (create_models_json models), some (create_voices_json []),
          some rep)) := by
  constructor
  · intro voices sub now fs
    simp [run_update]
  · intro models now fs rep hm hr
    simp [run_update, hm, hr]

/-- Witness for C6: the empty list aborts on the concrete state; the
concrete model list with empty voices and subscription still writes. -/
theorem c6_empty_models_abort_witness :
    run_update [] [] none now0 fs0 = some (false, fs0) ∧
    (run_update [modelA] [] none now0 fs0).map
        (fun r => (r.2.modelsJson, r.2.voicesJson, r.2.updateReport)) =
      some (some (create_models_json [modelA]), some (create_voices_json []),
        some ((create_update_report [modelA] [] none now0).getD
          ⟨[], 0, 0, [], none⟩)) :=
  ⟨c6_empty_models_abort.1 [] none now0 fs0,
   c6_empty_models_abort.2 [modelA] now0 fs0 _ (by simp) (by rfl)⟩

/-- C7: when an in-place patch fails (pattern not found or file missing) the
run returns failure, but every subsequent step still executes: the JSON
snapshots are written, the manifest bump is attempted, and the report is
produced. -/
theorem c7_patch_failure_continues :
    ∀ (models : List ApiModel) (voices : List ApiVoice)
        (sub : Option ApiSubscription) (now : Str) (fs : ExtensionFiles)
        (rep : UpdateReport),
      models ≠ [] →
      create_update_report models voices sub now = some rep →
      ((update_popup_html models fs.popupHtml).success = false ∨
        (update_content_js_model_mapping models fs.contentJs).success = false) →
      (run_update models voices sub now fs).map
          (fun r => (r.1, r.2.modelsJson, r.2.voicesJson, r.2.manifest,
            r.2.updateReport)) =
        some (false, some (create_models_json models),
          some (create_voices_json voices),
          (update_manifest_version_file fs.manifest).2, some rep) := by
  intro models voices sub now fs rep hm hr hfail
  simp only [run_update, if_neg hm, hr, Option.map_some]
  rcases hfail with h | h <;> simp [h]

/-- Witness for C7 on a state whose popup.html is missing. -/
theorem c7_patch_failure_continues_witness :
    (run_update [modelA] [] none now0
        ⟨none, some cjs0, none, none, none, none⟩).map
        (fun r => (r.1, r.2.modelsJson, r.2.voicesJson, r.2.manifest,
          r.2.updateReport)) =
      some (false, some (create_models_json [modelA]),
        some (create_voices_json []),
        (update_manifest_version_file
          (ExtensionFiles.mk none (some cjs0) none none none none).manifest).2,
        some ((create_update_report [modelA] [] none now0).getD
          ⟨[], 0, 0, [], none⟩)) :=
  c7_patch_failure_continues [modelA] [] none now0
    ⟨none, some cjs0, none, none, none, none⟩ _ (by simp) (by rfl)
    (Or.inl (by rfl))

/-- A model with every key absent from the API response. -/
def absentModel : ApiModel := ⟨none, none, none, none, none, none, none, none⟩

/-- A voice with every key absent from the API response. -/
def absentVoice : ApiVoice := ⟨none, none, none, none, none, none, none, none⟩

/-- A model carrying only its `model_id`. -/
def idOnlyModel : ApiModel :=
  ⟨some "m1".data, none, none, none, none, none, none, none⟩

/-- C8 counterexample: the claim says every absent field defaults to an
empty value or `False` in the produced outputs. But an absent
`token_cost_factor` becomes `1.0` in `models.json` (neither empty nor
false), absent identity fields (`model_id`, `name`, `description`) are
written with no default and serialize as `null`, and in the generated
dropdown block an absent `name` falls back to the `model_id`, not to an
empty value. -/
theorem c8_counterexample :
    (modelsJsonEntry absentModel).token_cost_factor = 1 ∧ (1 : ℚ) ≠ 0 ∧
    (modelsJsonEntry absentModel).model_id = none ∧
    (format_model_for_dropdown idOnlyModel).name = "m1".data ∧
    "m1".data ≠ ([] : Str) := by
  exact ⟨rfl, by norm_num, rfl, rfl, by decide⟩

/-- C8 (amended): absent fields default as the code prescribes — capability
flags to `False`; `languages`, `labels`, `available_for_tiers` to empty
lists and `settings` to an empty object; voice `description` and
`preview_url` to empty strings; `token_cost_factor` to `1.0`; the report's
model description to `'N/A'`; `model_id`, `name`, `category` and the model
`description` of the JSON snapshots have no default and serialize as
`null`; in the generated dropdown block an absent `name` falls back to the
`model_id` (itself defaulting to the empty string). -/
theorem c8_absent_field_defaults_amended :
    modelsJsonEntry absentModel = ⟨none, none, none, false, 1, [], false, false⟩ ∧
    voicesJsonEntry absentVoice = ⟨none, none, none, [], [], [], [], []⟩ ∧
    format_model_for_dropdown absentModel = ⟨[], [], [], []⟩ ∧
    format_model_for_dropdown idOnlyModel =
      ⟨"m1".data, "m1".data, "m1".data, []⟩ ∧
    reportModelSection absentModel = some ⟨none, none, "N/A".data, [], 1⟩ := by
  exact ⟨rfl, rfl, rfl, rfl, rfl⟩

/-- A backslash-free template parses to its own characters as literals. -/
theorem parseTAux_literal :
    ∀ (fuel : Nat) (t : Str), t.length ≤ fuel →
      t.all (fun c => c != '\\') = true →
      parseTAux fuel t = some (t.map (fun c => TemplItem.lit [c])) := by
  intro fuel
  induction fuel with
  | zero =>
    intro t hlen _
    have ht : t = [] := List.eq_nil_of_length_eq_zero (by omega)
    subst ht
    rfl
  | succ f ih =>
    intro t hlen hbs
    cases t with
    | nil => rfl
    | cons c rest =>
      rw [List.all_cons, Bool.and_eq_true] at hbs
      have hc : c ≠ '\\' := by simpa using hbs.1
      have hlen' : rest.length ≤ f := by
        simp only [List.length_cons] at hlen
        omega
      rw [parseTAux, if_neg hc, ih rest hlen' hbs.2]
      rfl

/-- Expanding a purely literal template reproduces the template at every
match. -/
theorem expandTemplate_literal (t m : Str) :
    expandTemplate (t.map (fun c => TemplItem.lit [c])) m = t := by
  induction t with
  | nil => rfl
  | cons c rest ih => simp [expandTemplate, ih]

/-- With a purely literal template, template-expanding substitution agrees
with literal substitution. -/
theorem reSubExpandAux_literal (t : Str) :
    ∀ (fuel : Nat) (s : Str),
      reSubExpandAux (t.map (fun c => TemplItem.lit [c])) fuel s =
        reSubAux t fuel s := by
  intro fuel
  induction fuel with
  | zero => intro s; rfl
  | succ f ih =>
    intro s
    simp only [reSubExpandAux, reSubAux]
    cases hc : contentSpan s with
    | none => rfl
    | some ab =>
      cases ab with
      | mk a b =>
        simp only [expandTemplate_literal, ih]

/-- On a backslash-free replacement, the full content.js patch (with
template processing) cannot raise and agrees with the literal model used by
the other claims. -/
theorem content_js_full_literal (models : List ApiModel) (file : Option Str)
    (h : (new_model_mapping models ++ ['\n']).all (fun c => c != '\\') = true) :
    update_content_js_model_mapping_full models file =
      some (update_content_js_model_mapping models file) := by
  cases file with
  | none => rfl
  | some content =>
    simp only [update_content_js_model_mapping_full, update_content_js_model_mapping]
    cases hc : contentSpan content with
    | none => rfl
    | some ab =>
      have hp : parse_template (new_model_mapping models ++ ['\n']) =
          some ((new_model_mapping models ++ ['\n']).map
            (fun c => TemplItem.lit [c])) :=
        parseTAux_literal _ _ (le_refl _) h
      simp only [hp, reSubExpandAux_literal, reSubModelMapping]

/-- On a backslash-free replacement the full run coincides with the literal
model of `run_update`. -/
theorem run_update_full_eq_of_literal (models : List ApiModel)
    (voices : List ApiVoice) (sub : Option ApiSubscription) (now : Str)
    (fs : ExtensionFiles)
    (h : (new_model_mapping models ++ ['\n']).all (fun c => c != '\\') = true) :
    run_update_full models voices sub now fs =
      run_update models voices sub now fs := by
  by_cases hm : models = []
  · subst hm
    rfl
  · simp only [run_update_full, run_update, if_neg hm,
      content_js_full_literal models fs.contentJs h]

/-- A model whose `languages` list holds an entry with both keys absent. -/
def badLangModel : ApiModel :=
  ⟨some "m1".data, some "M".data, none, none, none, some [⟨none, none⟩],
    some true, none⟩

/-- A model whose `model_id` carries a backslash escape (`\q`), which ends
up verbatim in the `re.sub` replacement text. -/
def backslashModel : ApiModel :=
  ⟨some "m\\q".data, some "M".data, none, none, none, some [], some true, none⟩

/-- C9 counterexample: the claim says file patching and report writing never
raise an uncaught exception, but two inputs refute it. A model whose
language entry lacks `language_id` (and `name`) makes the report writer's
`item['language_id']` raise a `KeyError`; and a model whose id carries the
backslash escape `\q` — its languages fully keyed, `reportSafe` — makes
`re.sub`'s replacement-template parsing at line 206 raise `re.error: bad
escape`. Both propagate out of `run_update` (modelled by `none`). -/
theorem c9_counterexample :
    run_update_full [badLangModel] [] none now0 fs0 = none ∧
    reportSafe [backslashModel] = true ∧
    run_update_full [backslashModel] [] none now0 fs0 = none := by
  refine ⟨by rfl, by decide, by rfl⟩

theorem langPairs_isSome {ls : List ApiLang}
    (h : ls.all (fun l => l.language_id.isSome && l.name.isSome) = true) :
    (langPairs ls).isSome := by
  induction ls with
  | nil => simp [langPairs]
  | cons l rest ih =>
    simp only [List.all_cons, Bool.and_eq_true] at h
    obtain ⟨⟨hi, hn⟩, hrest⟩ := h
    obtain ⟨i, hi'⟩ := Option.isSome_iff_exists.mp hi
    obtain ⟨n, hn'⟩ := Option.isSome_iff_exists.mp hn
    have := ih hrest
    obtain ⟨ps, hps⟩ := Option.isSome_iff_exists.mp this
    simp [langPairs, langPair, hi', hn', hps]

theorem reportSections_isSome {models : List ApiModel}
    (h : reportSafe models = true) : (reportSections models).isSome := by
  induction models with
  | nil => simp [reportSections]
  | cons m rest ih =>
    simp only [reportSafe, List.all_cons, Bool.and_eq_true] at h
    obtain ⟨hm, hrest⟩ := h
    have h1 : (langPairs (m.languages.getD [])).isSome := langPairs_isSome hm
    obtain ⟨ls, hls⟩ := Option.isSome_iff_exists.mp h1
    have h2 := ih hrest
    obtain ⟨ss, hss⟩ := Option.isSome_iff_exists.mp h2
    simp [reportSections, reportModelSection, hls, hss]

/-- C9 (amended): no exception escapes the update process provided every
language entry of every model carries both `language_id` and `name` keys,
and the `re.sub` replacement text built from the models contains no
backslash (so template processing cannot raise and inserts it literally);
without the first condition the report writer's `KeyError` propagates
uncaught, without the second `re.sub`'s template error can, and the
missing-secret-key exit remains the interactive path's only terminating
condition. -/
theorem c9_no_uncaught_exception_amended :
    ∀ (models : List ApiModel) (voices : List ApiVoice)
        (sub : Option ApiSubscription) (now : Str) (fs : ExtensionFiles),
      reportSafe models = true →
      (new_model_mapping models ++ ['\n']).all (fun c => c != '\\') = true →
      (run_update_full models voices sub now fs).isSome := by
  intro models voices sub now fs h hlit
  rw [run_update_full_eq_of_literal models voices sub now fs hlit]
  by_cases hm : models = []
  · simp [run_update, hm]
  · have hrs := reportSections_isSome h
    obtain ⟨secs, hsecs⟩ := Option.isSome_iff_exists.mp hrs
    simp [run_update, hm, create_update_report, hsecs]

/-- Witness for C9 (amended) on the concrete run. -/
theorem c9_no_uncaught_exception_amended_witness :
    (run_update_full [modelA] [] none now0 fs0).isSome :=
  c9_no_uncaught_exception_amended [modelA] [] none now0 fs0 (by decide) (by decide)

end UpdateExtension
